import Mathlib

/-!
Shallow embedding of the comic-metadata HTTP gateway (`src/backend/app.py`)
used to settle the specification claims about its runtime state machinery:
the image-fetch cache, the URL-rewriting forwarder, the rate limiter, the
two background-refreshed caches (allow-list and series catalog) and the
inbound URL validation of the image-serving route.

Network effects are modelled by passing the upstream's behaviour as explicit
data (an oracle function for per-URL image fetches, an outcome value for the
paginated catalog fetch and for the IP-list fetch); shared mutable state is
passed explicitly (prior state in, next state out).
-/

/-! ## String utilities

The Python code works with `in` (substring test), `startswith`, `endswith`,
`lower`, `strip`, `split(',')`, and `urllib.parse.quote` / `unquote`.  These
are embedded as executable functions over `String` / `List Char`.
-/

/-- Substring test: Lean embedding of Python's `needle in hay`. -/
def strContains (hay needle : String) : Bool :=
  hay.data.tails.any (fun t => needle.data.isPrefixOf t)

/-- Lean embedding of Python's `s.startswith(p)`. -/
def strStartsWith (s p : String) : Bool :=
  p.data.isPrefixOf s.data

/-- Lean embedding of Python's `s.endswith(p)`. -/
def strEndsWith (s p : String) : Bool :=
  p.data.isSuffixOf s.data

/-- Lean embedding of Python's `s.lower()` (ASCII case folding). -/
def strLower (s : String) : String :=
  String.mk (s.data.map Char.toLower)

/-- Whitespace characters removed by Python's `str.strip()`. -/
def isSpaceChar (c : Char) : Bool :=
  c = ' ' || c = '\t' || c = '\n' || c = '\x0d' || c = '\x0b' || c = '\x0c'

/-- Lean embedding of Python's `s.strip()`. -/
def pyStrip (s : String) : String :=
  String.mk (((s.data.dropWhile isSpaceChar).reverse.dropWhile isSpaceChar).reverse)

/-- Helper for `splitOnComma`: accumulates the current field (reversed). -/
def splitOnCommaAux : List Char → List Char → List String
  | [], cur => [String.mk cur.reverse]
  | c :: rest, cur =>
    if c = ',' then String.mk cur.reverse :: splitOnCommaAux rest []
    else splitOnCommaAux rest (c :: cur)

/-- Lean embedding of Python's `s.split(',')` (note `"".split(',') == ['']`). -/
def splitOnComma (s : String) : List String :=
  splitOnCommaAux s.data []

/-- Uppercase hexadecimal digit, as produced by `urllib.parse.quote`. -/
def hexDigit (n : ℕ) : Char :=
  if n < 10 then Char.ofNat (48 + n) else Char.ofNat (55 + n)

/-- UTF-8 byte sequence of a character (as `urllib.parse.quote` encodes it). -/
def utf8Bytes (c : Char) : List ℕ :=
  let n := c.toNat
  if n < 128 then [n]
  else if n < 2048 then [192 + n / 64, 128 + n % 64]
  else if n < 65536 then [224 + n / 4096, 128 + n / 64 % 64, 128 + n % 64]
  else [240 + n / 262144, 128 + n / 4096 % 64, 128 + n / 64 % 64, 128 + n % 64]

/-- One percent-escape `%XX` for a byte value. -/
def percentEncodeByte (b : ℕ) : List Char :=
  ['%', hexDigit (b / 16), hexDigit (b % 16)]

/-- Characters `urllib.parse.quote` leaves as-is with the default `safe='/'`:
unreserved characters plus the slash. -/
def isQuoteSafe (c : Char) : Bool :=
  c.isAlpha || c.isDigit || c = '_' || c = '.' || c = '-' || c = '~' || c = '/'

/-- Lean embedding of Python's `urllib.parse.quote(s)` (default `safe='/'`). -/
def pyQuote (s : String) : String :=
  String.mk ((s.data.map (fun c =>
    if isQuoteSafe c then [c]
    else (utf8Bytes c).flatMap percentEncodeByte)).flatten)

/-- Hexadecimal value of a digit character, if any. -/
def hexVal (c : Char) : Option ℕ :=
  if '0' ≤ c ∧ c ≤ '9' then some (c.toNat - 48)
  else if 'A' ≤ c ∧ c ≤ 'F' then some (c.toNat - 55)
  else if 'a' ≤ c ∧ c ≤ 'f' then some (c.toNat - 87)
  else none

/-- Helper for `pyUnquote`: decodes `%XX` escapes, leaving malformed escapes
verbatim.  Each decoded byte becomes one character; the claims only involve
ASCII URLs, where this agrees with `urllib.parse.unquote`. -/
def unquoteChars : List Char → List Char
  | '%' :: a :: b :: rest =>
    match hexVal a, hexVal b with
    | some x, some y => Char.ofNat (16 * x + y) :: unquoteChars rest
    | _, _ => '%' :: unquoteChars (a :: b :: rest)
  | c :: rest => c :: unquoteChars rest
  | [] => []
termination_by structural l => l

/-- Lean embedding of Python's `urllib.parse.unquote(s)` (ASCII range). -/
def pyUnquote (s : String) : String :=
  String.mk (unquoteChars s.data)

/-! ## ImageCache — `fetch_comic_vine_image` (app.py lines 310-354)

The Python function is decorated with `@lru_cache(maxsize=200)` and returns
`response.content` on a 2xx response and `None` on any `requests` exception
(transport error or, via `raise_for_status`, non-2xx status).  `lru_cache`
memoizes whatever the function returns, `None` included.

The cache is a most-recent-first association list from URL to the memoized
return value (`some bytes` for a stored payload, `none` for a memoized
failure).  The network is an oracle `net : String → Option String` giving,
for each URL, `some body` when the fetch would succeed with 2xx and `none`
when it would fail.  The result triple is (returned value, next cache state,
whether an outbound fetch was performed).
-/

/-- The type of the memoized image cache (`@lru_cache(maxsize=200)` state). -/
abbrev ImageCacheState := List (String × Option String)

/-- Lean embedding of `fetch_comic_vine_image` together with its `lru_cache`
wrapper: on a hit the memoized value is returned (moved to the front, no
outbound call); on a miss the network oracle is consulted once and its result
— `none` included — is memoized, evicting beyond 200 entries. -/
def fetch_comic_vine_image (net : String → Option String)
    (cache : ImageCacheState) (url : String) :
    Option String × ImageCacheState × Bool :=
  match cache.find? (fun p => p.1 == url) with
  | some p => (p.2, p :: cache.filter (fun q => q.1 != url), false)
  | none =>
    let r := net url
    (r, ((url, r) :: cache).take 200, true)

/-! ## Gateway image route — `proxy_image` (app.py lines 357-407) -/

/-- Outcome of the `/image` route. -/
inductive ProxyOutcome where
  | badRequest : ProxyOutcome
  | notFound : ProxyOutcome
  | ok : String → String → ProxyOutcome
deriving DecidableEq, Repr

/-- Content type inferred from the URL's extension (app.py lines 396-400). -/
def contentTypeOf (url : String) : String :=
  if strEndsWith (strLower url) ".png" then "image/png"
  else if strEndsWith (strLower url) ".webp" then "image/webp"
  else "image/jpeg"

/-- Lean embedding of the `proxy_image` route handler: missing-parameter
check, `unquote`, the self-reference check (`'trmnl.bettens.dev' in url or
request.host in url`), the domain check (`url.startswith` either scheme
variant of the Comic Vine origin), the CDN path check (`'/a/uploads/' in
url`), then delegation to `fetch_comic_vine_image`.  Returns the outcome,
the next image-cache state, and whether an outbound fetch was performed. -/
def proxy_image (host : String) (urlParam : Option String)
    (net : String → Option String) (cache : ImageCacheState) :
    ProxyOutcome × ImageCacheState × Bool :=
  match urlParam with
  | none => (ProxyOutcome.badRequest, cache, false)
  | some raw =>
    let url := pyUnquote raw
    if strContains url "trmnl.bettens.dev" || strContains url host then
      (ProxyOutcome.badRequest, cache, false)
    else if !(strStartsWith url "https://comicvine.gamespot.com/"
              || strStartsWith url "http://comicvine.gamespot.com/") then
      (ProxyOutcome.badRequest, cache, false)
    else if !(strContains url "/a/uploads/") then
      (ProxyOutcome.badRequest, cache, false)
    else
      let r := fetch_comic_vine_image net cache url
      match r.1 with
      | none => (ProxyOutcome.notFound, r.2.1, r.2.2)
      | some content => (ProxyOutcome.ok (contentTypeOf url) content, r.2.1, r.2.2)

/-! ## AccessControl — `fetch_trmnl_ips` / `update_trmnl_ips_sync`
(app.py lines 64-107) -/

/-- The fixed loopback addresses (`LOCALHOST_IPS` in app.py). -/
def LOCALHOST_IPS : List String := ["127.0.0.1", "::1"]

/-- Outcome of the outbound call to the TRMNL IP-list service: either a
parsed JSON payload with its `ipv4` and `ipv6` arrays, or any failure
(transport error, non-2xx via `raise_for_status`, JSON parse error). -/
inductive IpFetchOutcome where
  | success : List String → List String → IpFetchOutcome
  | failure : IpFetchOutcome
deriving DecidableEq, Repr

/-- Lean embedding of `fetch_trmnl_ips`: on success the union of the fetched
IPv4 list, IPv6 list and the loopback set; on any exception the loopback-only
set (`set(LOCALHOST_IPS)`). -/
def fetch_trmnl_ips : IpFetchOutcome → Finset String
  | IpFetchOutcome.success ipv4 ipv6 => (ipv4 ++ ipv6 ++ LOCALHOST_IPS).toFinset
  | IpFetchOutcome.failure => LOCALHOST_IPS.toFinset

/-- Lean embedding of `update_trmnl_ips_sync`: runs `fetch_trmnl_ips` (which
never raises — it converts failures into the loopback-only set) and assigns
the result to the shared allow-set unconditionally. -/
def update_trmnl_ips_sync (prior : Finset String) (o : IpFetchOutcome) :
    Finset String :=
  let _ := prior
  fetch_trmnl_ips o

/-! ## CatalogCache — `fetch_popular_series` / `update_series_data_sync`
(app.py lines 136-236) -/

/-- One raw volume object of a Comic Vine `volumes` page, with the fields the
fetch loop reads.  `id = none` models a missing/null id (`volume.get('id')`
falsy also covers `0`, checked separately); `name = none` a missing/null name
(`""` falsy checked separately); `publisher = none` models a missing, null or
non-dict `publisher`; `publisher = some pn` a publisher dict whose
`.get('name', 'Unknown')` evaluates to `pn` (`none` for an explicit null). -/
structure Volume where
  id : Option ℕ
  name : Option String
  count_of_issues : Option ℤ
  start_year : Option ℤ
  publisher : Option (Option String)
deriving DecidableEq, Repr

/-- One entry of the in-memory series catalog (`SERIES_DATA`). -/
structure SeriesEntry where
  id : ℕ
  name : String
  start_year : ℤ
  issue_count : ℤ
  publisher_name : Option String
deriving DecidableEq, Repr

/-- Lean embedding of the per-volume body of the fetch loop (app.py lines
181-198): skip when id is falsy or name is falsy or `count_of_issues < 1`;
normalize the publisher name to `"Unknown"` when the publisher is absent or
not a dict. -/
def processVolume (v : Volume) : Option SeriesEntry :=
  match v.id, v.name with
  | some i, some n =>
    if i = 0 ∨ n = "" then none
    else
      let cnt := v.count_of_issues.getD 0
      if cnt < 1 then none
      else some { id := i, name := n,
                  start_year := v.start_year.getD 0,
                  issue_count := cnt,
                  publisher_name := match v.publisher with
                    | none => some "Unknown"
                    | some pn => pn }
  | _, _ => none

/-- Appends one page's valid volumes to the accumulator, honouring the
`len(all_series) >= max_series` break inside the page loop. -/
def addPage (maxSeries : ℕ) (page : List Volume) (acc : List SeriesEntry) :
    List SeriesEntry :=
  page.foldl (fun a v =>
    if maxSeries ≤ a.length then a
    else match processVolume v with
      | some e => a ++ [e]
      | none => a) acc

/-- Lean embedding of the paginated `while` loop of `fetch_popular_series`
(app.py lines 155-206): stop when the cap is reached, when a page has no
results, or when a page returns fewer than `limit = 100` results. -/
def fetchPages (maxSeries : ℕ) : List (List Volume) → List SeriesEntry →
    List SeriesEntry
  | [], acc => acc
  | page :: rest, acc =>
    if maxSeries ≤ acc.length then acc
    else if page.isEmpty then acc
    else
      let acc2 := addPage maxSeries page acc
      if page.length < 100 then acc2 else fetchPages maxSeries rest acc2

/-- Stable insertion by case-insensitive name, embedding the ordering of
`all_series.sort(key=lambda x: x['name'].lower())`. -/
def insertByName (e : SeriesEntry) : List SeriesEntry → List SeriesEntry
  | [] => [e]
  | x :: xs =>
    if strLower x.name < strLower e.name then x :: insertByName e xs
    else e :: x :: xs

/-- Stable sort by case-insensitive name (Python's `list.sort` with
`key=lambda x: x['name'].lower()`). -/
def sortSeries : List SeriesEntry → List SeriesEntry
  | [] => []
  | x :: xs => insertByName x (sortSeries xs)

/-- Outcome of the paginated catalog fetch against the metadata API: either
every page fetch succeeded (the pages, in order), or some page fetch raised
after the given earlier pages had been fetched. -/
inductive SeriesFetchOutcome where
  | success : List (List Volume) → SeriesFetchOutcome
  | failure : List (List Volume) → SeriesFetchOutcome
deriving DecidableEq, Repr

/-- Lean embedding of `fetch_popular_series`: `[]` when no API key is
configured; on a fully successful paginated fetch, the filtered, capped
(1000), case-insensitively sorted list; when any page fetch raises, the
`except` clause discards the partial accumulator and returns `[]`. -/
def fetch_popular_series (apiKey : Option String) :
    SeriesFetchOutcome → List SeriesEntry
  | SeriesFetchOutcome.success pages =>
    match apiKey with
    | none => []
    | some _ => sortSeries (fetchPages 1000 pages [])
  | SeriesFetchOutcome.failure _ => []

/-- Lean embedding of `update_series_data_sync`: runs `fetch_popular_series`
(which never raises — failures become `[]`) and assigns the result to the
shared `SERIES_DATA` unconditionally. -/
def update_series_data_sync (prior : List SeriesEntry) (apiKey : Option String)
    (o : SeriesFetchOutcome) : List SeriesEntry :=
  let _ := prior
  fetch_popular_series apiKey o

/-! ## Catalog search route — `search_series` (app.py lines 623-677) -/

/-- Display label built by `search_series` (app.py lines 660-667): name, then
` (start_year)` when the year is truthy, then ` - publisher` when the
publisher name is truthy, then the issue-count suffix. -/
def displayName (s : SeriesEntry) : String :=
  let d := s.name
  let d := if s.start_year ≠ 0 then d ++ " (" ++ toString s.start_year ++ ")"
           else d
  let d := match s.publisher_name with
    | some p => if p ≠ "" then d ++ " - " ++ p else d
    | none => d
  d ++ " [" ++ toString s.issue_count ++ " issues]"

/-- Lean embedding of the `search_series` route handler.  `query` is the
free-text query carried by the request; the handler never reads any query
parameter — it copies the shared series list, returns `[]` when it is empty,
and otherwise formats the first 250 entries as (display label, id string)
pairs. -/
def search_series (seriesData : List SeriesEntry) (query : String) :
    List (String × String) :=
  let _ := query
  if seriesData.isEmpty then []
  else (seriesData.take 250).map (fun s => (displayName s, toString s.id))

/-! ## UpstreamForwarder image-URL rewriting — `get_random_comics`
(app.py lines 594-603)

The rewrite loop runs over each result's `image` object and, for exactly the
keys `small_url`, `medium_url`, `screen_url`, `original_url`, replaces a
truthy value containing `comicvine.gamespot.com` by a URL of this gateway's
image route carrying the quoted original as the `url` query parameter.
-/

/-- The per-result `image` object, with the asset-URL fields Comic Vine
returns.  `none` models an absent or null key, `some ""` an empty string
(falsy, hence skipped by the rewrite loop). -/
structure ImageObj where
  small_url : Option String
  medium_url : Option String
  screen_url : Option String
  original_url : Option String
  icon_url : Option String
  tiny_url : Option String
  thumb_url : Option String
  super_url : Option String
deriving DecidableEq, Repr

/-- One result object of the issues response, reduced to the field the
rewrite loop touches. -/
structure Issue where
  image : Option ImageObj
deriving DecidableEq, Repr

/-- The body of the rewrite: a URL containing `comicvine.gamespot.com`
becomes `scheme://host/comic-book-covers/image?url=<quoted original>`; any
other URL is left unchanged. -/
def rewriteUrl (scheme host u : String) : String :=
  if strContains u "comicvine.gamespot.com" then
    scheme ++ "://" ++ host ++ "/comic-book-covers/image?url=" ++ pyQuote u
  else u

/-- One key of the rewrite loop: absent and empty values are skipped
(`if key in issue['image'] and issue['image'][key]`). -/
def rewriteField (scheme host : String) : Option String → Option String
  | none => none
  | some u => if u = "" then some u else some (rewriteUrl scheme host u)

/-- The rewrite applied to an `image` object: exactly the four keys
`small_url`, `medium_url`, `screen_url`, `original_url` are rewritten. -/
def rewriteImageObj (scheme host : String) (img : ImageObj) : ImageObj :=
  { img with
    small_url := rewriteField scheme host img.small_url,
    medium_url := rewriteField scheme host img.medium_url,
    screen_url := rewriteField scheme host img.screen_url,
    original_url := rewriteField scheme host img.original_url }

/-- The rewrite applied to one result (`if 'image' in issue and
issue['image']`). -/
def rewriteIssue (scheme host : String) (iss : Issue) : Issue :=
  match iss.image with
  | none => iss
  | some img => { iss with image := some (rewriteImageObj scheme host img) }

/-- The rewrite loop over the collected results of `get_random_comics`. -/
def rewriteIssues (scheme host : String) (l : List Issue) : List Issue :=
  l.map (rewriteIssue scheme host)

/-! ## Random-sample route — `get_random_comics` parameter handling and
issue-request planning (app.py lines 475-592)

The seeded pseudo-random generator `random.Random(seed)` is a pure function
of its seed string; it is modelled by an oracle
`randints : String → ℕ → ℕ` giving, for each seed, the sequence of values
its successive `randint(0, 100)` draws produce.
-/

/-- Lean embedding of `count = min(int(request.args.get('count', 3)), 10)`
(app.py line 493); `none` models an absent parameter. -/
def effectiveCount (countParam : Option ℤ) : ℤ :=
  min (countParam.getD 3) 10

/-- Lean embedding of the seed defaulting (app.py lines 494-498): an absent
or empty seed parameter falls back to the current UTC hour string. -/
def effectiveSeed (seedParam : Option String) (nowHour : String) : String :=
  match seedParam with
  | none => nowHour
  | some s => if s = "" then nowHour else s

/-- Lean embedding of the `series_ids` parsing (app.py line 509):
`[sid.strip() for sid in series_ids_str.split(',') if sid.strip()]`. -/
def parseSeriesIds (s : String) : List String :=
  ((splitOnComma s).map pyStrip).filter (fun x => x != "")

/-- One planned outbound issues request: the series filter, the seeded
pseudo-random `offset`, and the `limit` parameter. -/
structure IssueRequest where
  series_id : String
  offset : ℕ
  limit : ℤ
deriving DecidableEq, Repr

/-- Lean embedding of the two fetch strategies (app.py lines 521-592): a
single series gets one request with `offset = rng.randint(0, 100)` and
`limit = count`; several series get one request per `i < count` against
`series_cycle[i]` with `offset = rng.randint(0, 100) + i` and `limit = 1`,
where `series_cycle = series_ids * (count // len(series_ids) + 1)`. -/
def plannedRequests (randints : String → ℕ → ℕ) (seed : String)
    (seriesIds : List String) (count : ℤ) : List IssueRequest :=
  match seriesIds with
  | [sid] => [{ series_id := sid, offset := randints seed 0, limit := count }]
  | _ =>
    let cycle :=
      (List.replicate (count.toNat / seriesIds.length + 1) seriesIds).flatten
    (List.range count.toNat).map (fun i =>
      { series_id := cycle.getD i "", offset := randints seed i + i,
        limit := 1 })

/-- Lean embedding of the request-handling prefix of `get_random_comics`:
parameter parsing, count clamping, seed defaulting, the two 400 paths for a
missing/blank `series_ids`, then the planned outbound issue requests.
`none` models a 400 response. -/
def get_random_comics_plan (randints : String → ℕ → ℕ)
    (seriesIdsStr : String) (countParam : Option ℤ)
    (seedParam : Option String) (nowHour : String) :
    Option (List IssueRequest) :=
  let count := effectiveCount countParam
  let seed := effectiveSeed seedParam nowHour
  if seriesIdsStr = "" then none
  else
    let seriesIds := parseSeriesIds seriesIdsStr
    if seriesIds.isEmpty then none
    else some (plannedRequests randints seed seriesIds count)

/-- Total number of issues the planned requests ask the upstream for (the
sum of their `limit` parameters, counting a non-positive limit as zero). -/
def totalIssueLimit (reqs : List IssueRequest) : ℕ :=
  (reqs.map (fun r => r.limit.toNat)).sum

/-! ## RateLimiter — `rate_limit_api_request` (app.py lines 51-61)

The function runs under `api_request_lock`, so concurrent callers execute
their critical sections in some serial order; a trace records, per permitted
call in that order, the clock value read on entry (`current_time`) and the
clock value recorded at the end (`last_api_request_time = time.time()`).
Timestamps are rationals, the configured interval is `1`.
-/

/-- Observed clock reads of one execution of `rate_limit_api_request`'s
critical section. -/
structure AcquireObs where
  tEnter : ℚ
  tRecord : ℚ

/-- The sleep the code performs: `1.0 - time_since_last` when less than the
interval has elapsed, nothing otherwise. -/
def sleepNeeded (last tEnter : ℚ) : ℚ :=
  if tEnter - last < 1 then 1 - (tEnter - last) else 0

/-- A well-timed execution: the clock does not run backwards between the
previous record and this entry, and at least the requested sleep elapses
between the entry read and the final `time.time()` record. -/
def WellTimed (last : ℚ) (a : AcquireObs) : Prop :=
  last ≤ a.tEnter ∧ a.tEnter + sleepNeeded last a.tEnter ≤ a.tRecord

/-- A serialized trace of critical-section executions, each well-timed with
respect to the previously recorded call time. -/
def ValidTrace : ℚ → List AcquireObs → Prop
  | _, [] => True
  | last, a :: rest => WellTimed last a ∧ ValidTrace a.tRecord rest

/-- The recorded call-start timestamps of the trace, in serialization
order. -/
def recordedTimes (trace : List AcquireObs) : List ℚ :=
  trace.map (fun a => a.tRecord)

/-! ## Helper lemmas -/

/-- A lookup on a cache whose most-recent entry is the requested URL is a
hit: the memoized value is returned and no outbound fetch happens. -/
theorem fetch_hit_fst (net : String → Option String) (v : Option String)
    (rest : ImageCacheState) (url : String) :
    (fetch_comic_vine_image net ((url, v) :: rest) url).1 = v := by
  simp [fetch_comic_vine_image, List.find?]

/-- Companion to `fetch_hit_fst`: a hit performs no outbound fetch. -/
theorem fetch_hit_flag (net : String → Option String) (v : Option String)
    (rest : ImageCacheState) (url : String) :
    (fetch_comic_vine_image net ((url, v) :: rest) url).2.2 = false := by
  simp [fetch_comic_vine_image, List.find?]

/-- A well-timed critical section records a timestamp at least one interval
after the previously recorded one. -/
theorem wellTimed_record_ge (last : ℚ) (a : AcquireObs)
    (h : WellTimed last a) : last + 1 ≤ a.tRecord := by
  obtain ⟨h1, h2⟩ := h
  unfold sleepNeeded at h2
  split at h2
  · linarith
  · linarith [not_lt.mp (by assumption : ¬(a.tEnter - last < 1))]

/-- Every timestamp recorded by a valid trace is at least one interval after
the timestamp recorded before the trace started. -/
theorem validTrace_recorded_ge (trace : List AcquireObs) :
    ∀ last : ℚ, ValidTrace last trace →
      ∀ t ∈ recordedTimes trace, last + 1 ≤ t := by
  induction trace with
  | nil => intro last _ t ht; simp [recordedTimes] at ht
  | cons a rest ih =>
    intro last h t ht
    obtain ⟨hw, hrest⟩ := h
    have hrec : last + 1 ≤ a.tRecord := wellTimed_record_ge last a hw
    rcases List.mem_cons.mp ht with h1 | h2
    · rw [h1]; exact hrec
    · have := ih a.tRecord hrest t h2
      linarith

/-- The number of issues the planned requests ask for equals the clamped
count (for any series list: the single-series request carries the whole
count as its limit, the round-robin plan issues `count` single-issue
requests). -/
theorem totalIssueLimit_unit_limits (l : List IssueRequest)
    (h : ∀ r ∈ l, r.limit = 1) : totalIssueLimit l = l.length := by
  induction l with
  | nil => rfl
  | cons a tl ihl =>
    have ha : a.limit = 1 := h a (List.mem_cons_self a tl)
    have htl := ihl (fun r hr => h r (List.mem_cons_of_mem a hr))
    unfold totalIssueLimit at htl ⊢
    simp only [List.map_cons, List.sum_cons, List.length_cons, ha, htl]
    omega

/-- The number of issues the planned requests ask for equals the clamped
count (for any series list: the single-series request carries the whole
count as its limit, the round-robin plan issues `count` single-issue
requests). -/
theorem totalIssueLimit_plannedRequests (randints : String → ℕ → ℕ)
    (seed : String) (seriesIds : List String) (count : ℤ) :
    totalIssueLimit (plannedRequests randints seed seriesIds count)
      = count.toNat := by
  have hmulti : ∀ cyc : List String,
      totalIssueLimit ((List.range count.toNat).map (fun i =>
        { series_id := cyc.getD i "", offset := randints seed i + i,
          limit := 1 })) = count.toNat := by
    intro cyc
    rw [totalIssueLimit_unit_limits]
    · simp
    · intro r hr
      obtain ⟨i, _, hi⟩ := List.mem_map.mp hr
      rw [← hi]
  match seriesIds with
  | [] =>
    simp only [plannedRequests]
    exact hmulti _
  | [sid] =>
    simp [plannedRequests, totalIssueLimit]
  | a :: b :: tl =>
    simp only [plannedRequests]
    exact hmulti _

/-! ## Claim theorems -/

/-- C1 counterexample: a catalog refresh that fails after fetching a page
does not retain the prior snapshot — with a nonempty catalog before the
refresh, the catalog after the failed refresh is empty, not the prior
contents, refuting the claim at this input. -/
theorem c1_counterexample :
    update_series_data_sync
        [{ id := 100, name := "Alpha Force", start_year := 0,
           issue_count := 12, publisher_name := some "Unknown" }]
        (some "key")
        (SeriesFetchOutcome.failure
          [[{ id := some 100, name := some "Alpha Force",
              count_of_issues := some 12, start_year := some 0,
              publisher := none }]])
      = [] ∧
    ([] : List SeriesEntry)
      ≠ [{ id := 100, name := "Alpha Force", start_year := 0,
           issue_count := 12, publisher_name := some "Unknown" }] := by
  exact ⟨rfl, by decide⟩

/-- C1 (amended): if a catalog refresh fails part-way through its paginated
fetch loop, the partial result is discarded and the catalog shared state is
replaced with the empty list — the prior snapshot is not retained. -/
theorem c1_failed_refresh_replaces_catalog_with_empty
    (prior : List SeriesEntry) (apiKey : Option String)
    (pagesBefore : List (List Volume)) :
    update_series_data_sync prior apiKey
        (SeriesFetchOutcome.failure pagesBefore) = [] := by
  rfl

/-- C2 counterexample: with an upstream on which every fetch fails, the
first cache operation for a URL returns NotFound, and a second operation for
the same URL does not perform a fresh outbound fetch (it returns the
memoized negative result), refuting the claim at this input. -/
theorem c2_counterexample :
    (fetch_comic_vine_image (fun _ => none) []
        "https://comicvine.gamespot.com/a/uploads/x.jpg").1 = none ∧
    (fetch_comic_vine_image (fun _ => none)
        (fetch_comic_vine_image (fun _ => none) []
          "https://comicvine.gamespot.com/a/uploads/x.jpg").2.1
        "https://comicvine.gamespot.com/a/uploads/x.jpg").2.2 = false := by
  exact ⟨rfl, rfl⟩

/-- C2 (amended): when an image fetch fails (transport error or non-2xx
status) the image-cache operation returns NotFound after one outbound fetch,
but the failure IS cached: a later request for the same URL returns the
memoized negative result without performing a fresh outbound fetch. -/
theorem c2_failure_is_memoized (net : String → Option String)
    (cache : ImageCacheState) (url : String)
    (hmiss : cache.find? (fun p => p.1 == url) = none)
    (hfail : net url = none) :
    (fetch_comic_vine_image net cache url).1 = none ∧
    (fetch_comic_vine_image net cache url).2.2 = true ∧
    (fetch_comic_vine_image net
      (fetch_comic_vine_image net cache url).2.1 url).1 = none ∧
    (fetch_comic_vine_image net
      (fetch_comic_vine_image net cache url).2.1 url).2.2 = false := by
  have htake : ((url, (none : Option String)) :: cache).take 200
      = (url, none) :: cache.take 199 := by
    rw [show (200:ℕ) = 199 + 1 from rfl, List.take_succ_cons]
  have h1 : fetch_comic_vine_image net cache url
      = (none, (url, none) :: cache.take 199, true) := by
    simp [fetch_comic_vine_image, hmiss, hfail, htake]
  refine ⟨?_, ?_, ?_, ?_⟩
  · rw [h1]
  · rw [h1]
  · rw [h1]; exact fetch_hit_fst _ _ _ _
  · rw [h1]; exact fetch_hit_flag _ _ _ _

/-- C2 witness: the amended theorem applied to a concrete always-failing
upstream, an empty cache and a concrete URL. -/
theorem c2_failure_is_memoized_witness :
    (fetch_comic_vine_image (fun _ => none) []
        "https://comicvine.gamespot.com/a/uploads/y.jpg").1 = none ∧
    (fetch_comic_vine_image (fun _ => none) []
        "https://comicvine.gamespot.com/a/uploads/y.jpg").2.2 = true ∧
    (fetch_comic_vine_image (fun _ => none)
      (fetch_comic_vine_image (fun _ => none) []
        "https://comicvine.gamespot.com/a/uploads/y.jpg").2.1
      "https://comicvine.gamespot.com/a/uploads/y.jpg").1 = none ∧
    (fetch_comic_vine_image (fun _ => none)
      (fetch_comic_vine_image (fun _ => none) []
        "https://comicvine.gamespot.com/a/uploads/y.jpg").2.1
      "https://comicvine.gamespot.com/a/uploads/y.jpg").2.2 = false :=
  c2_failure_is_memoized (fun _ => none) []
    "https://comicvine.gamespot.com/a/uploads/y.jpg" rfl rfl

/-- C3 counterexample: with a one-entry catalog whose name and publisher do
not contain the query `"zzz"`, the search operation nevertheless returns the
entry (formatted for the picker) instead of the empty sequence the claim
requires. -/
theorem c3_counterexample :
    search_series
        [{ id := 100, name := "Alpha Force", start_year := 0,
           issue_count := 12, publisher_name := some "Unknown" }] "zzz"
      = [("Alpha Force - Unknown [12 issues]", "100")] ∧
    strContains (strLower "Alpha Force") (strLower "zzz") = false ∧
    strContains (strLower "Unknown") (strLower "zzz") = false ∧
    search_series
        [{ id := 100, name := "Alpha Force", start_year := 0,
           issue_count := 12, publisher_name := some "Unknown" }] "zzz"
      ≠ [] := by
  refine ⟨by decide, by decide, by decide, by decide⟩

/-- C3 (amended): the catalog search operation ignores the query entirely —
for every query string and catalog state it returns the first 250 entries of
the (already alphabetically sorted) catalog, formatted as display-label/id
pairs, regardless of whether any entry matches the query; the result is the
same for every query and never exceeds 250 entries. -/
theorem c3_search_ignores_query (data : List SeriesEntry) (q q2 : String) :
    search_series data q = search_series data q2 ∧
    (search_series data q).length ≤ 250 := by
  constructor
  · rfl
  · unfold search_series
    split
    · simp
    · simp only [List.length_map, List.length_take]
      omega

/-- C4 counterexample: asset-reference rewriting is not idempotent and does
not leave a URL targeting the gateway's own host untouched: rewriting an
upstream URL once yields a URL on the gateway's host, and applying the
rewrite again changes it (the quoted original inside the query string still
contains the upstream domain). -/
theorem c4_counterexample :
    strStartsWith
        (rewriteUrl "https" "trmnl.example.com"
          "https://comicvine.gamespot.com/a/uploads/scale_small/1.jpg")
        "https://trmnl.example.com/" = true ∧
    rewriteUrl "https" "trmnl.example.com"
        (rewriteUrl "https" "trmnl.example.com"
          "https://comicvine.gamespot.com/a/uploads/scale_small/1.jpg")
      ≠ rewriteUrl "https" "trmnl.example.com"
          "https://comicvine.gamespot.com/a/uploads/scale_small/1.jpg" ∧
    rewriteIssues "https" "trmnl.example.com"
        (rewriteIssues "https" "trmnl.example.com"
          [{ image := some
              { small_url := none, medium_url := none, screen_url := none,
                original_url :=
                  some "https://comicvine.gamespot.com/a/uploads/scale_small/1.jpg",
                icon_url := none, tiny_url := none, thumb_url := none,
                super_url := none } }])
      ≠ rewriteIssues "https" "trmnl.example.com"
          [{ image := some
              { small_url := none, medium_url := none, screen_url := none,
                original_url :=
                  some "https://comicvine.gamespot.com/a/uploads/scale_small/1.jpg",
                icon_url := none, tiny_url := none, thumb_url := none,
                super_url := none } }] := by
  refine ⟨by decide, by decide, by decide⟩

/-- C4 (amended): the rewrite leaves a URL that does not contain the
upstream's asset domain untouched, but it is not idempotent: the rewritten
form still contains the upstream domain inside its query parameter, so a
second application rewrites it again, and a URL targeting the gateway's own
host is not exempted (self-reference rejection happens only in the image
route, not in the rewriter). -/
theorem c4_non_upstream_url_untouched (scheme host u : String)
    (h : strContains u "comicvine.gamespot.com" = false) :
    rewriteUrl scheme host u = u := by
  unfold rewriteUrl
  rw [h]
  simp

/-- C4 witness: the amended theorem applied to a concrete URL from an
unrelated image host. -/
theorem c4_non_upstream_url_untouched_witness :
    rewriteUrl "https" "trmnl.example.com" "https://images.example.com/x.jpg"
      = "https://images.example.com/x.jpg" :=
  c4_non_upstream_url_untouched "https" "trmnl.example.com"
    "https://images.example.com/x.jpg" (by decide)

/-- C5: whenever an allow-list refresh fails (the IP-list service is
unreachable, answers a non-2xx status, or returns an unparsable body), the
allow-set after the refresh equals the loopback-only set, regardless of the
allow-set contents before the refresh — fail-closed, prior data is not
kept. -/
theorem c5_allowlist_fail_closed (prior : Finset String) :
    update_trmnl_ips_sync prior IpFetchOutcome.failure
      = LOCALHOST_IPS.toFinset := by
  rfl

/-- C6: for every number of concurrent callers of the rate limiter — which
serialize on its lock into a trace of well-timed critical sections — the
recorded call-start timestamps of permitted calls are pairwise separated by
at least the configured interval of 1 time unit. -/
theorem c6_rate_limiter_spacing (last0 : ℚ) (trace : List AcquireObs)
    (h : ValidTrace last0 trace) :
    List.Pairwise (fun s t => s + 1 ≤ t) (recordedTimes trace) := by
  induction trace generalizing last0 with
  | nil => exact List.Pairwise.nil
  | cons a rest ih =>
    obtain ⟨hw, hrest⟩ := h
    refine List.Pairwise.cons ?_ (ih a.tRecord hrest)
    intro t ht
    have := validTrace_recorded_ge rest a.tRecord hrest t ht
    linarith

/-- C6 witness: the spacing theorem applied to a concrete two-call trace in
which the second caller enters immediately and is made to sleep a full
interval. -/
theorem c6_rate_limiter_spacing_witness :
    List.Pairwise (fun s t => s + 1 ≤ t)
      (recordedTimes [{ tEnter := 0, tRecord := 1 },
                      { tEnter := 1, tRecord := 2 }]) :=
  c6_rate_limiter_spacing 0
    [{ tEnter := 0, tRecord := 1 }, { tEnter := 1, tRecord := 2 }]
    (by simp [ValidTrace, WellTimed, sleepNeeded, one_add_one_eq_two])

/-- C7: the image-serving route returns BadRequest and performs no outbound
call whenever the (decoded) requested URL fails the domain check, the CDN
path check, or references the gateway's own host; and conversely any request
that is not answered BadRequest — i.e. is delegated to the image cache —
passed all three checks. -/
theorem c7_proxy_image_validation (host raw : String)
    (net : String → Option String) (cache : ImageCacheState) :
    (((strStartsWith (pyUnquote raw) "https://comicvine.gamespot.com/" = false ∧
       strStartsWith (pyUnquote raw) "http://comicvine.gamespot.com/" = false) ∨
      strContains (pyUnquote raw) "/a/uploads/" = false ∨
      strContains (pyUnquote raw) host = true) →
      (proxy_image host (some raw) net cache).1 = ProxyOutcome.badRequest ∧
      (proxy_image host (some raw) net cache).2.2 = false) ∧
    ((proxy_image host (some raw) net cache).1 ≠ ProxyOutcome.badRequest →
      (strStartsWith (pyUnquote raw) "https://comicvine.gamespot.com/" = true ∨
       strStartsWith (pyUnquote raw) "http://comicvine.gamespot.com/" = true) ∧
      strContains (pyUnquote raw) "/a/uploads/" = true ∧
      strContains (pyUnquote raw) host = false) := by
  cases hc1 : strContains (pyUnquote raw) "trmnl.bettens.dev" <;>
    cases hc2 : strContains (pyUnquote raw) host <;>
      cases hs1 : strStartsWith (pyUnquote raw) "https://comicvine.gamespot.com/" <;>
        cases hs2 : strStartsWith (pyUnquote raw) "http://comicvine.gamespot.com/" <;>
          cases hup : strContains (pyUnquote raw) "/a/uploads/" <;>
            simp [proxy_image, hc1, hc2, hs1, hs2, hup]

/-- C7 witness: the validation theorem applied to a concrete URL outside the
upstream asset domain: the route answers BadRequest without any outbound
call. -/
theorem c7_proxy_image_validation_witness :
    (proxy_image "gw.example" (some "https://evil.com/a/uploads/x.jpg")
        (fun _ => none) []).1 = ProxyOutcome.badRequest ∧
    (proxy_image "gw.example" (some "https://evil.com/a/uploads/x.jpg")
        (fun _ => none) []).2.2 = false :=
  (c7_proxy_image_validation "gw.example" "https://evil.com/a/uploads/x.jpg"
      (fun _ => none) []).1 (Or.inl (by decide))

/-- C8 counterexample: `icon_url` belongs to the claim's fixed field set but
is not rewritten — a payload whose image object carries an upstream URL only
in `icon_url` passes through the rewrite loop unchanged, and the surviving
URL does not point at the gateway's image-serving path. -/
theorem c8_counterexample :
    rewriteIssues "https" "gw.example"
        [{ image := some
            { small_url := none, medium_url := none, screen_url := none,
              original_url := none,
              icon_url := some "https://comicvine.gamespot.com/a/uploads/icon.jpg",
              tiny_url := none, thumb_url := none, super_url := none } }]
      = [{ image := some
            { small_url := none, medium_url := none, screen_url := none,
              original_url := none,
              icon_url := some "https://comicvine.gamespot.com/a/uploads/icon.jpg",
              tiny_url := none, thumb_url := none, super_url := none } }] ∧
    strStartsWith "https://comicvine.gamespot.com/a/uploads/icon.jpg"
        "https://gw.example/" = false := by
  refine ⟨by decide, by decide⟩

/-- C8 (amended): the rewrite loop touches exactly the four fields
`small_url`, `medium_url`, `screen_url`, `original_url` of each result's
image object — each of those holding a non-empty upstream asset URL is
rewritten in place to the gateway's image-serving path carrying the quoted
original URL as a query parameter — while `icon_url`, `tiny_url`,
`thumb_url` and `super_url` are left untouched. -/
theorem c8_rewrites_exactly_four_fields (scheme host : String)
    (img : ImageObj) :
    (rewriteImageObj scheme host img).icon_url = img.icon_url ∧
    (rewriteImageObj scheme host img).tiny_url = img.tiny_url ∧
    (rewriteImageObj scheme host img).thumb_url = img.thumb_url ∧
    (rewriteImageObj scheme host img).super_url = img.super_url ∧
    (∀ u, img.small_url = some u → u ≠ "" →
      strContains u "comicvine.gamespot.com" = true →
      (rewriteImageObj scheme host img).small_url
        = some (scheme ++ "://" ++ host ++ "/comic-book-covers/image?url="
            ++ pyQuote u)) ∧
    (∀ u, img.medium_url = some u → u ≠ "" →
      strContains u "comicvine.gamespot.com" = true →
      (rewriteImageObj scheme host img).medium_url
        = some (scheme ++ "://" ++ host ++ "/comic-book-covers/image?url="
            ++ pyQuote u)) ∧
    (∀ u, img.screen_url = some u → u ≠ "" →
      strContains u "comicvine.gamespot.com" = true →
      (rewriteImageObj scheme host img).screen_url
        = some (scheme ++ "://" ++ host ++ "/comic-book-covers/image?url="
            ++ pyQuote u)) ∧
    (∀ u, img.original_url = some u → u ≠ "" →
      strContains u "comicvine.gamespot.com" = true →
      (rewriteImageObj scheme host img).original_url
        = some (scheme ++ "://" ++ host ++ "/comic-book-covers/image?url="
            ++ pyQuote u)) := by
  refine ⟨rfl, rfl, rfl, rfl, ?_, ?_, ?_, ?_⟩ <;>
    (intro u hu hne hcv
     simp [rewriteImageObj, rewriteField, rewriteUrl, hu, hne, hcv])

/-- C8 witness: the amended theorem applied to a concrete image object —
`small_url` is rewritten to the gateway path with the quoted original, and
`icon_url` passes through unchanged. -/
theorem c8_rewrites_exactly_four_fields_witness :
    (rewriteImageObj "https" "gw.example"
        { small_url := some "https://comicvine.gamespot.com/a/uploads/x.jpg",
          medium_url := none, screen_url := none, original_url := none,
          icon_url := some "https://comicvine.gamespot.com/a/uploads/icon.jpg",
          tiny_url := none, thumb_url := none,
          super_url := none }).small_url
      = some ("https" ++ "://" ++ "gw.example" ++ "/comic-book-covers/image?url="
          ++ pyQuote "https://comicvine.gamespot.com/a/uploads/x.jpg") ∧
    (rewriteImageObj "https" "gw.example"
        { small_url := some "https://comicvine.gamespot.com/a/uploads/x.jpg",
          medium_url := none, screen_url := none, original_url := none,
          icon_url := some "https://comicvine.gamespot.com/a/uploads/icon.jpg",
          tiny_url := none, thumb_url := none,
          super_url := none }).icon_url
      = some "https://comicvine.gamespot.com/a/uploads/icon.jpg" :=
  ⟨(c8_rewrites_exactly_four_fields "https" "gw.example" _).2.2.2.2.1
      "https://comicvine.gamespot.com/a/uploads/x.jpg" rfl (by decide) (by decide),
   (c8_rewrites_exactly_four_fields "https" "gw.example" _).1⟩

/-- C9: the random-sample operation is deterministic in its seed — with the
seed parameter supplied (and non-blank, so that the current-hour default
does not engage), the planned seeded offsets and issue requests do not
depend on the clock: two calls at different times with the same seed, count
and series-id list plan identical requests. -/
theorem c9_sample_deterministic_in_seed (randints : String → ℕ → ℕ)
    (seriesIdsStr : String) (countParam : Option ℤ) (s : String)
    (now1 now2 : String) (hs : s ≠ "") :
    get_random_comics_plan randints seriesIdsStr countParam (some s) now1
      = get_random_comics_plan randints seriesIdsStr countParam (some s) now2 := by
  simp [get_random_comics_plan, effectiveSeed, hs]

/-- C9 witness: the determinism theorem applied to concrete parameters at
two different clock hours. -/
theorem c9_sample_deterministic_in_seed_witness :
    get_random_comics_plan (fun _ i => i) "6306,2340" (some 3) (some "abc")
        "2025010100"
      = get_random_comics_plan (fun _ i => i) "6306,2340" (some 3) (some "abc")
        "2025010101" :=
  c9_sample_deterministic_in_seed (fun _ i => i) "6306,2340" (some 3) "abc"
    "2025010100" "2025010101" (by decide)

/-- C10: the effective count of the random-sample route equals the minimum
of the requested count and 10, defaults to 3 when the count parameter is
absent, and consequently no accepted request plans more than 10 issues to be
sampled. -/
theorem c10_count_clamped :
    (∀ c : ℤ, effectiveCount (some c) = min c 10) ∧
    effectiveCount none = 3 ∧
    (∀ (randints : String → ℕ → ℕ) (seriesIdsStr : String)
        (countParam : Option ℤ) (seedParam : Option String)
        (nowHour : String) (plan : List IssueRequest),
      get_random_comics_plan randints seriesIdsStr countParam seedParam
          nowHour = some plan →
      totalIssueLimit plan ≤ 10) := by
  refine ⟨fun c => rfl, rfl, ?_⟩
  intro randints seriesIdsStr countParam seedParam nowHour plan h
  simp only [get_random_comics_plan] at h
  split_ifs at h with h1 h2
  simp only [Option.some.injEq] at h
  subst h
  rw [totalIssueLimit_plannedRequests]
  have hle : effectiveCount countParam ≤ 10 := min_le_right _ _
  calc (effectiveCount countParam).toNat
      ≤ (10:ℤ).toNat := Int.toNat_le_toNat hle
    _ = 10 := rfl

/-- C10 witness: the clamping theorem applied to a concrete accepted request
(count 3, two series): the planned requests ask for at most 10 issues. -/
theorem c10_count_clamped_witness :
    totalIssueLimit
        [{ series_id := "6306", offset := 0, limit := 1 },
         { series_id := "2340", offset := 2, limit := 1 },
         { series_id := "6306", offset := 4, limit := 1 }] ≤ 10 :=
  c10_count_clamped.2.2 (fun _ i => i) "6306, 2340" (some 3) (some "s")
    "2025" _ (by decide)
